import Mathlib

/-!
# cloudflare-ddns: a shallow embedding of `main.go`

The program resolves the caller's public IPv4/IPv6 addresses (`fetchIp`) and
brings the `A`/`AAAA` records of one Cloudflare zone in line with them
(`updateRecords`).

Everything the program does is an interaction with the outside world (HTTP
echo endpoints, the Cloudflare API, the logger, `os.Exit`).  The embedding
keeps the control flow of the source and makes the outside world explicit:

* the answers of the outside world are inputs (`Net`, `Env`, `API`);
* every effect the program performs is appended to a trace of `Event`s, in
  program order;
* `log.Fatal()...Send()` ends the process: the run stops with `Outcome.exited`.

Go `string`s and `[]byte` bodies are `String`s; `string(body)` copies the
bytes and is the identity.  A Go `error` is represented by its message.
-/

namespace CloudflareDDNS

/-! ## Data model -/

/-- A Go `error` value, represented by its message (`err.Error()`). -/
abbrev GoError := String

/-- Severity of a zerolog event, as used in `main.go`. -/
inductive Level where
  | Debug | Info | Warn | Error | Fatal
  deriving DecidableEq, Repr

/-- The fields of `cloudflare.Zone` the program reads. -/
structure Zone where
  ID : String
  Name : String
  deriving DecidableEq, Repr

/-- The fields of `cloudflare.DNSRecord` the program reads. -/
structure DNSRecord where
  ID : String
  Type_ : String
  Content : String
  deriving DecidableEq, Repr

/-- The field of `cloudflare.ResultInfo` the program reads. -/
structure ResultInfo where
  TotalPages : Int
  deriving DecidableEq, Repr

/-- The fields of `cloudflare.UpdateDNSRecordParams` the program sets. -/
structure UpdateDNSRecordParams where
  ID : String
  Content : String
  deriving DecidableEq, Repr

/-- One observable effect of the program.

* `Log level fields msg`: a zerolog event `log.<level>()...Msg(msg)` (or
  `.Send()`, with `msg = ""`), with its `Str`/`Err`/`Interface` fields;
* `Get url network`: `client.Get(url)` on a transport dialling `network`;
* `ListZones`, `ListDNSRecords zoneID`, `UpdateDNSRecord zoneID params`: the
  Cloudflare API calls, with the resource container's identifier. -/
inductive Event where
  | Log (level : Level) (fields : List (String × String)) (msg : String)
  | Get (url network : String)
  | ListZones
  | ListDNSRecords (zoneID : String)
  | UpdateDNSRecord (zoneID : String) (params : UpdateDNSRecordParams)
  deriving DecidableEq, Repr

/-- How a function of the program ends: it returns its `error` result
(`none` is `nil`), or the process is terminated by `log.Fatal`. -/
inductive Outcome where
  | returned (err : Option GoError)
  | exited
  deriving DecidableEq, Repr

/-! ## Address resolver -/

/-- The answer of the network to one `client.Get`: a transport error, or a
response whose body `io.ReadAll` reads to the end or fails on. -/
structure Net where
  get : String → String → Except GoError (Except GoError String)

/-- The embedding of `fetchContent(url, sNetwork)` (main.go 139-160): the
body of the response as a string, or the error of `client.Get` or of
`io.ReadAll`. -/
def fetchContent (net : Net) (url sNetwork : String) : Except GoError String :=
  match net.get url sNetwork with
  | .error err => .error err
  | .ok response =>
    match response with
    | .error err => .error err
    | .ok body => .ok body

/-- The embedding of `fetchIpFrom(from)` (main.go 126-137): the Go result
triple `(ipv4, ipv6, err)`, and the `client.Get` calls made.  The `tcp6`
fetch is only made when the `tcp4` fetch succeeded. -/
def fetchIpFrom (net : Net) (src : String) :
    (String × String × Option GoError) × List Event :=
  match fetchContent net src "tcp4" with
  | .error err => (("", "", some err), [Event.Get src "tcp4"])
  | .ok ipv4 =>
    match fetchContent net src "tcp6" with
    | .error err => (("", "", some err), [Event.Get src "tcp4", Event.Get src "tcp6"])
    | .ok ipv6 => ((ipv4, ipv6, none), [Event.Get src "tcp4", Event.Get src "tcp6"])

/-- The primary echo endpoint of `fetchIp`. -/
def primaryEndpoint : String := "https://ifconfig.me"

/-- The secondary echo endpoint of `fetchIp`. -/
def secondaryEndpoint : String := "https://ipecho.net/plain"

/-- The zerolog event `log.<level>().Err(err).Send()`. -/
def logErr (level : Level) (err : GoError) : Event :=
  Event.Log level [("error", err)] ""

/-- The result of `fetchIp`: the Go result triple and the trace of effects. -/
structure FetchResult where
  ipv4 : String
  ipv6 : String
  err : Option GoError
  trace : List Event
  deriving DecidableEq, Repr

/-- The embedding of `fetchIp()` (main.go 46-60).  The variables `ipv4`,
`ipv6`, `err` are assigned by the fetch from the primary endpoint and then
overwritten by the fetch from the secondary endpoint. -/
def fetchIp (net : Net) : FetchResult :=
  let ((_ipv4, _ipv6, err), g1) := fetchIpFrom net primaryEndpoint
  let t1 := g1 ++
    (match err with
     | some e => [logErr Level.Error e]
     | none => [])
  let ((ipv4, ipv6, err), g2) := fetchIpFrom net secondaryEndpoint
  let t2 := t1 ++ g2
  match err with
  | some e =>
    { ipv4 := "", ipv6 := "", err := some "unsable to fetch ip",
      trace := t2 ++ [logErr Level.Error e] }
  | none => { ipv4 := ipv4, ipv6 := ipv6, err := none, trace := t2 }

/-- A network on which every fetch succeeds, with distinct bodies. -/
def netAllOk : Net where
  get := fun url network =>
    if url = primaryEndpoint then
      (if network = "tcp4" then .ok (.ok "1.1.1.1") else .ok (.ok "::1"))
    else
      (if network = "tcp4" then .ok (.ok "2.2.2.2\n") else .ok (.ok " ::2 "))

/-- A network on which the primary endpoint answers and the
secondary endpoint cannot be reached. -/
def netSecondaryDown : Net where
  get := fun url network =>
    if url = primaryEndpoint then
      (if network = "tcp4" then .ok (.ok "1.1.1.1") else .ok (.ok "::1"))
    else .error "dial: network is unreachable"

/-! ## Record reconciler -/

/-- The Cloudflare API client, as the answers the provider gives.  The
provider is external and may answer the same request differently over time,
so the answer to a `ListDNSRecords` (`UpdateDNSRecord`) call depends on the
number of `ListDNSRecords` (`UpdateDNSRecord`) calls made before it in this
run, and on the arguments of the call.  `UpdateDNSRecord` answers with its
error (`none` is `nil`); the record it returns is dropped by the program. -/
structure API where
  ListZones : Except GoError (List Zone)
  ListDNSRecords : Nat → String → Except GoError (List DNSRecord × ResultInfo)
  UpdateDNSRecord : Nat → String → UpdateDNSRecordParams → Option GoError

/-- The process environment: `os.Getenv`, and what
`cloudflare.NewWithAPIToken` returns for a token. -/
structure Env where
  Getenv : String → String
  NewWithAPIToken : String → Except GoError API

/-- Number of `ListDNSRecords` calls in a trace. -/
def listCount (t : List Event) : Nat :=
  t.countP fun e => match e with
    | Event.ListDNSRecords _ => true
    | _ => false

/-- Number of `UpdateDNSRecord` calls in a trace. -/
def updateCount (t : List Event) : Nat :=
  t.countP fun e => match e with
    | Event.UpdateDNSRecord _ _ => true
    | _ => false

/-- The body of the loop over `dnsRecords` (main.go 89-118) for one record:
the trace `t` so far, extended by the effects of the `switch`. -/
def recordStep (api : API) (ipv4 ipv6 zoneID : String) (t : List Event)
    (dnsRecord : DNSRecord) : List Event :=
  if dnsRecord.Type_ = "A" then
    if dnsRecord.Content = ipv4 then
      t ++ [Event.Log Level.Info [("ipv4", ipv4)] "A record is up to date"]
    else
      let params : UpdateDNSRecordParams := { ID := dnsRecord.ID, Content := ipv4 }
      let t1 := t ++ [Event.UpdateDNSRecord zoneID params]
      match api.UpdateDNSRecord (updateCount t) zoneID params with
      | some err => t1 ++ [Event.Log Level.Error [("error", err)] "Could not update A record"]
      | none => t1 ++ [Event.Log Level.Info [("ipv4", ipv4)] "Updated A record"]
  else if dnsRecord.Type_ = "AAAA" then
    if dnsRecord.Content = ipv6 then
      t ++ [Event.Log Level.Info [("ipv6", ipv6)] "AAAA record is up to date"]
    else
      let params : UpdateDNSRecordParams := { ID := dnsRecord.ID, Content := ipv6 }
      let t1 := t ++ [Event.UpdateDNSRecord zoneID params]
      match api.UpdateDNSRecord (updateCount t) zoneID params with
      | some err => t1 ++ [Event.Log Level.Error [("error", err)] "Could not update AAAA record"]
      | none => t1 ++ [Event.Log Level.Info [("ipv6", ipv6)] "Updated AAAA record"]
  else t

/-- The loop `for _, dnsRecord := range dnsRecords` (main.go 88-119). -/
def recordLoop (api : API) (ipv4 ipv6 zoneID : String) :
    List DNSRecord → List Event → List Event
  | [], t => t
  | dnsRecord :: rest, t =>
    recordLoop api ipv4 ipv6 zoneID rest (recordStep api ipv4 ipv6 zoneID t dnsRecord)

/-- The check of the result page count (main.go 84-86): the warning it
logs when there is more than one page. -/
def morePagesWarning (resultInfo : ResultInfo) : List Event :=
  if resultInfo.TotalPages > 1 then
    [Event.Log Level.Warn [] "There\x27s more pages, it might not work properly"]
  else []

/-- The loop `for _, zone := range zones` (main.go 75-121), from the trace
`t` so far: the final trace, and whether the process was terminated by the
`log.Fatal` of a failed record listing. -/
def zoneLoop (api : API) (ipv4 ipv6 zoneName : String) :
    List Zone → List Event → List Event × Bool
  | [], t => (t, false)
  | zone :: rest, t =>
    if zone.Name = zoneName then
      let t1 := t ++ [Event.Log Level.Debug [("zone", zone.Name)] "",
        Event.ListDNSRecords zone.ID]
      match api.ListDNSRecords (listCount t) zone.ID with
      | .error err => (t1 ++ [logErr Level.Fatal err], true)
      | .ok (dnsRecords, resultInfo) =>
        let t2 := t1 ++ morePagesWarning resultInfo
        zoneLoop api ipv4 ipv6 zoneName rest (recordLoop api ipv4 ipv6 zone.ID dnsRecords t2)
    else zoneLoop api ipv4 ipv6 zoneName rest t

/-- The embedding of `updateRecords(ipv4, ipv6)` (main.go 62-124): the
trace of effects and how the function ends. -/
def updateRecords (env : Env) (ipv4 ipv6 : String) : List Event × Outcome :=
  let zoneName := env.Getenv "ZONE_NAME"
  match env.NewWithAPIToken (env.Getenv "CLOUDFLARE_API_TOKEN") with
  | .error err => ([logErr Level.Fatal err], Outcome.exited)
  | .ok api =>
    match api.ListZones with
    | .error _ => ([Event.ListZones], Outcome.returned none)
    | .ok zones =>
      match zoneLoop api ipv4 ipv6 zoneName zones [Event.ListZones] with
      | (t, true) => (t, Outcome.exited)
      | (t, false) => (t, Outcome.returned none)

/-! ## Observations on traces -/

/-- The `UpdateDNSRecord` calls of a trace, in order: the resource
container's identifier and the parameters of each call. -/
def updateCalls (t : List Event) : List (String × UpdateDNSRecordParams) :=
  t.filterMap fun e => match e with
    | Event.UpdateDNSRecord zoneID params => some (zoneID, params)
    | _ => none

/-- The identifiers of the `ListDNSRecords` calls of a trace, in order. -/
def listCalls (t : List Event) : List String :=
  t.filterMap fun e => match e with
    | Event.ListDNSRecords zoneID => some zoneID
    | _ => none

/-- The messages of the log events of a trace, in order. -/
def logMessages (t : List Event) : List String :=
  t.filterMap fun e => match e with
    | Event.Log _ _ msg => some msg
    | _ => none

/-! ## A provider that applies updates -/

/-- The effect of a successful update call on one record of the provider:
the record with the id of the call gets the content of the call. -/
def applyOne (r : DNSRecord) (call : String × UpdateDNSRecordParams) : DNSRecord :=
  if r.ID = call.2.ID then { r with Content := call.2.Content } else r

/-- The effect of a successful update call on the records of a zone. -/
def applyUpdate (records : List DNSRecord) (call : String × UpdateDNSRecordParams) :
    List DNSRecord :=
  records.map fun r => applyOne r call

/-- The records of a zone after a sequence of successful update calls. -/
def applyUpdates (records : List DNSRecord) (calls : List (String × UpdateDNSRecordParams)) :
    List DNSRecord :=
  calls.foldl applyUpdate records

/-! ## Concrete scenarios -/

/-- An environment with `ZONE_NAME=example.com` whose API client is `api`. -/
def envWith (api : API) : Env where
  Getenv := fun key => if key = "ZONE_NAME" then "example.com" else "secret-token"
  NewWithAPIToken := fun _ => .ok api

/-- A provider with the given zone listing, the same record listing on one
page for every zone, and update calls that succeed. -/
def apiWith (zones : List Zone) (records : List DNSRecord) : API where
  ListZones := .ok zones
  ListDNSRecords := fun _ _ => .ok (records, { TotalPages := 1 })
  UpdateDNSRecord := fun _ _ _ => none

/-- The record listing of the scenario of the specification, with an `MX`
record added. -/
def scenarioRecords : List DNSRecord :=
  [{ ID := "r1", Type_ := "A", Content := "1.1.1.1" },
   { ID := "r0", Type_ := "MX", Content := "mail.example.com" },
   { ID := "r2", Type_ := "AAAA", Content := "::1" }]

/-- The scenario of the specification: one zone `example.com`. -/
def scenarioEnv : Env :=
  envWith (apiWith [{ ID := "z1", Name := "example.com" }] scenarioRecords)

/-- A zone listing in which no name is exactly `example.com`. -/
def nearMissZones : List Zone :=
  [{ ID := "z1", Name := "Example.com" }, { ID := "z2", Name := "example.com." },
   { ID := "z3", Name := "sub.example.com" }, { ID := "z4", Name := "example.co" }]

/-- A provider whose zone listing fails. -/
def apiZonesDown : API where
  ListZones := .error "HTTP status 500"
  ListDNSRecords := fun _ _ => .ok (scenarioRecords, { TotalPages := 1 })
  UpdateDNSRecord := fun _ _ _ => none

/-- The scenario provider, with every update call failing. -/
def apiUpdatesFail : API where
  ListZones := .ok [{ ID := "z1", Name := "example.com" }]
  ListDNSRecords := fun _ _ => .ok (scenarioRecords, { TotalPages := 1 })
  UpdateDNSRecord := fun _ _ _ => some "HTTP status 403"

/-- Three zones named `example.com`; the second record listing fails. -/
def apiSecondListingDown : API where
  ListZones := .ok [{ ID := "z1", Name := "example.com" }, { ID := "z9", Name := "example.org" },
    { ID := "z2", Name := "example.com" }, { ID := "z3", Name := "example.com" }]
  ListDNSRecords := fun k _ =>
    if k = 1 then .error "HTTP status 500" else .ok (scenarioRecords, { TotalPages := 1 })
  UpdateDNSRecord := fun _ _ _ => none

/-- A record listing with one `A` and one `AAAA` record, both equal to the
addresses `2.2.2.2` and `::2`, among records of other types. -/
def settledRecords : List DNSRecord :=
  [{ ID := "r0", Type_ := "MX", Content := "mail.example.com" },
   { ID := "r2", Type_ := "AAAA", Content := "::2" },
   { ID := "r3", Type_ := "TXT", Content := "2.2.2.2" },
   { ID := "r1", Type_ := "A", Content := "2.2.2.2" }]

/-- The scenario record listing after the two updates to `2.2.2.2` and
`::2` were applied. -/
def updatedRecords : List DNSRecord :=
  [{ ID := "r1", Type_ := "A", Content := "2.2.2.2" },
   { ID := "r0", Type_ := "MX", Content := "mail.example.com" },
   { ID := "r2", Type_ := "AAAA", Content := "::2" }]

/-! ## The claims, in the words of the specification -/

/-- Whether a fallible call failed. -/
def failed {α : Type} (r : Except GoError α) : Bool :=
  match r with
  | .error _ => true
  | .ok _ => false

/-- The update call the specification asks for on one record of the zone
`zoneID`: an `A` record whose content differs from `ipv4` is set to `ipv4`,
an `AAAA` record whose content differs from `ipv6` is set to `ipv6`, and
there is no call for any other record. -/
def expectedUpdate (ipv4 ipv6 zoneID : String) (r : DNSRecord) :
    Option (String × UpdateDNSRecordParams) :=
  if r.Type_ = "A" ∧ r.Content ≠ ipv4 then some (zoneID, { ID := r.ID, Content := ipv4 })
  else if r.Type_ = "AAAA" ∧ r.Content ≠ ipv6 then some (zoneID, { ID := r.ID, Content := ipv6 })
  else none

/-- The update calls the specification asks for on a record listing, in the
order of the listing. -/
def expectedUpdates (ipv4 ipv6 zoneID : String) (records : List DNSRecord) :
    List (String × UpdateDNSRecordParams) :=
  records.filterMap (expectedUpdate ipv4 ipv6 zoneID)

/-- The update calls the specification asks for on the zones matching
`ZONE_NAME`, in the order of the zone listing, where `records k` is the
listing returned for the `k`-th of them (counting from `k`). -/
def expectedCalls (ipv4 ipv6 : String) (records : Nat → List DNSRecord) :
    Nat → List Zone → List (String × UpdateDNSRecordParams)
  | _, [] => []
  | k, zone :: rest =>
    expectedUpdates ipv4 ipv6 zone.ID (records k) ++ expectedCalls ipv4 ipv6 records (k + 1) rest

/-- Whether a log message is one of the two "up to date" lines. -/
def isUpToDateLine (msg : String) : Bool :=
  decide (msg = "A record is up to date" ∨ msg = "AAAA record is up to date")

/-- The "up to date" lines among the log messages of a trace. -/
def upToDateLines (t : List Event) : List String :=
  (logMessages t).filter isUpToDateLine

/-- The "up to date" line of a record that needs no update. -/
def upToDateMessage (r : DNSRecord) : Option String :=
  if r.Type_ = "A" then some "A record is up to date"
  else if r.Type_ = "AAAA" then some "AAAA record is up to date"
  else none

/-- The zones of a listing whose name is exactly `zoneName`. -/
def matching (zoneName : String) (zones : List Zone) : List Zone :=
  zones.filter fun zone => zone.Name = zoneName

/-- What the turn of a matching zone appends to the trace before its record
loop, when the record listing succeeds. -/
def zoneHead (zone : Zone) (resultInfo : ResultInfo) : List Event :=
  [Event.Log Level.Debug [("zone", zone.Name)] "", Event.ListDNSRecords zone.ID] ++
    morePagesWarning resultInfo

/-! ## Address resolver: lemmas -/

theorem fetchIpFrom_err (net : Net) (src : String) :
    (fetchIpFrom net src).1.2.2 ≠ none ↔
      (failed (fetchContent net src "tcp4") = true ∨
       failed (fetchContent net src "tcp6") = true) := by
  unfold fetchIpFrom
  cases h4 : fetchContent net src "tcp4" <;> cases h6 : fetchContent net src "tcp6" <;>
    simp [failed]

theorem fetchIp_err (net : Net) :
    (fetchIp net).err ≠ none ↔ (fetchIpFrom net secondaryEndpoint).1.2.2 ≠ none := by
  unfold fetchIp
  rcases hp : fetchIpFrom net primaryEndpoint with ⟨⟨a, b, e⟩, g⟩
  rcases hs : fetchIpFrom net secondaryEndpoint with ⟨⟨a2, b2, e2⟩, g2⟩
  cases e2 <;> simp

theorem fetchIp_empty_of_err (net : Net) (h : (fetchIp net).err ≠ none) :
    (fetchIp net).ipv4 = "" ∧ (fetchIp net).ipv6 = "" := by
  unfold fetchIp at h ⊢
  rcases hp : fetchIpFrom net primaryEndpoint with ⟨⟨a, b, e⟩, g⟩
  rcases hs : fetchIpFrom net secondaryEndpoint with ⟨⟨a2, b2, e2⟩, g2⟩
  rw [hp, hs] at h
  cases e2 <;> simp_all

/-! ## Record reconciler: the record loop -/

theorem updateCalls_append (t u : List Event) :
    updateCalls (t ++ u) = updateCalls t ++ updateCalls u := by
  simp [updateCalls]

theorem listCount_append (t u : List Event) :
    listCount (t ++ u) = listCount t + listCount u := by
  simp [listCount]

theorem listCalls_append (t u : List Event) :
    listCalls (t ++ u) = listCalls t ++ listCalls u := by
  simp [listCalls]

theorem logMessages_append (t u : List Event) :
    logMessages (t ++ u) = logMessages t ++ logMessages u := by
  simp [logMessages]

/-- What one turn of the record loop appends to the trace. -/
theorem recordStep_eq_append (api : API) (ipv4 ipv6 zoneID : String) (t : List Event)
    (r : DNSRecord) :
    ∃ u, recordStep api ipv4 ipv6 zoneID t r = t ++ u ∧
      updateCalls u = (expectedUpdate ipv4 ipv6 zoneID r).toList ∧
      listCount u = 0 ∧ listCalls u = [] := by
  unfold recordStep expectedUpdate
  by_cases hA : r.Type_ = "A"
  · have hB : ¬ r.Type_ = "AAAA" := by rw [hA]; decide
    by_cases hc : r.Content = ipv4
    · exact ⟨[Event.Log Level.Info [("ipv4", ipv4)] "A record is up to date"],
        by simp [hA, hc], by simp [updateCalls, hA, hB, hc], rfl, rfl⟩
    · cases hu : api.UpdateDNSRecord (updateCount t) zoneID { ID := r.ID, Content := ipv4 }
      · exact ⟨[Event.UpdateDNSRecord zoneID { ID := r.ID, Content := ipv4 },
          Event.Log Level.Info [("ipv4", ipv4)] "Updated A record"],
          by simp [hA, hc, hu], by simp [updateCalls, hA, hc], rfl, rfl⟩
      · rename_i err
        exact ⟨[Event.UpdateDNSRecord zoneID { ID := r.ID, Content := ipv4 },
          Event.Log Level.Error [("error", err)] "Could not update A record"],
          by simp [hA, hc, hu], by simp [updateCalls, hA, hc], rfl, rfl⟩
  · by_cases hB : r.Type_ = "AAAA"
    · by_cases hc : r.Content = ipv6
      · exact ⟨[Event.Log Level.Info [("ipv6", ipv6)] "AAAA record is up to date"],
          by simp [hB, hc], by simp [updateCalls, hB, hc], rfl, rfl⟩
      · cases hu : api.UpdateDNSRecord (updateCount t) zoneID { ID := r.ID, Content := ipv6 }
        · exact ⟨[Event.UpdateDNSRecord zoneID { ID := r.ID, Content := ipv6 },
            Event.Log Level.Info [("ipv6", ipv6)] "Updated AAAA record"],
            by simp [hB, hc, hu], by simp [updateCalls, hB, hc], rfl, rfl⟩
        · rename_i err
          exact ⟨[Event.UpdateDNSRecord zoneID { ID := r.ID, Content := ipv6 },
            Event.Log Level.Error [("error", err)] "Could not update AAAA record"],
            by simp [hB, hc, hu], by simp [updateCalls, hB, hc], rfl, rfl⟩
    · exact ⟨[], by simp [hA, hB], by simp [updateCalls, hA, hB], rfl, rfl⟩

/-- What the record loop appends to the trace: the update calls the
specification asks for on the listing, and no `ListDNSRecords` call. -/
theorem recordLoop_eq_append (api : API) (ipv4 ipv6 zoneID : String)
    (records : List DNSRecord) (t : List Event) :
    ∃ u, recordLoop api ipv4 ipv6 zoneID records t = t ++ u ∧
      updateCalls u = expectedUpdates ipv4 ipv6 zoneID records ∧
      listCount u = 0 ∧ listCalls u = [] := by
  induction records generalizing t with
  | nil => exact ⟨[], by simp [recordLoop], rfl, rfl, rfl⟩
  | cons r rest ih =>
    obtain ⟨u1, h1, hu1, hl1, hc1⟩ := recordStep_eq_append api ipv4 ipv6 zoneID t r
    obtain ⟨u2, h2, hu2, hl2, hc2⟩ := ih (t ++ u1)
    refine ⟨u1 ++ u2, ?_, ?_, ?_, ?_⟩
    · simp [recordLoop, h1, h2]
    · rw [updateCalls_append, hu1, hu2]
      cases h : expectedUpdate ipv4 ipv6 zoneID r <;> simp [expectedUpdates, h]
    · rw [listCount_append, hl1, hl2]
    · rw [listCalls_append, hc1, hc2]; rfl

/-- The records that need no update. -/
theorem expectedUpdate_eq_none_iff (ipv4 ipv6 zoneID : String) (r : DNSRecord) :
    expectedUpdate ipv4 ipv6 zoneID r = none ↔
      (r.Type_ = "A" → r.Content = ipv4) ∧ (r.Type_ = "AAAA" → r.Content = ipv6) := by
  unfold expectedUpdate
  by_cases hA : r.Type_ = "A"
  · have hB : ¬ r.Type_ = "AAAA" := by rw [hA]; decide
    by_cases hc : r.Content = ipv4 <;> simp [hA, hB, hc]
  · by_cases hB : r.Type_ = "AAAA"
    · by_cases hc : r.Content = ipv6 <;> simp [hA, hB, hc]
    · simp [hA, hB]

/-- The update call of a record that needs one. -/
theorem expectedUpdate_eq_some (ipv4 ipv6 zoneID : String) (r : DNSRecord)
    (c : String × UpdateDNSRecordParams) (h : expectedUpdate ipv4 ipv6 zoneID r = some c) :
    c.2.ID = r.ID ∧
      ((r.Type_ = "A" ∧ c.2.Content = ipv4) ∨ (r.Type_ = "AAAA" ∧ c.2.Content = ipv6)) := by
  unfold expectedUpdate at h
  split_ifs at h with h1 h2
  · have e := Option.some.inj h
    subst e
    exact ⟨rfl, Or.inl ⟨h1.1, rfl⟩⟩
  · have e := Option.some.inj h
    subst e
    exact ⟨rfl, Or.inr ⟨h2.1, rfl⟩⟩

/-- A turn of the record loop on a record that needs no update: at most the
"up to date" line of the record is logged. -/
theorem recordStep_up_to_date (api : API) (ipv4 ipv6 zoneID : String) (t : List Event)
    (r : DNSRecord) (h : expectedUpdate ipv4 ipv6 zoneID r = none) :
    ∃ u, recordStep api ipv4 ipv6 zoneID t r = t ++ u ∧
      logMessages u = (upToDateMessage r).toList := by
  unfold expectedUpdate at h
  unfold recordStep upToDateMessage
  by_cases hA : r.Type_ = "A"
  · have hc : r.Content = ipv4 := by
      by_contra hc
      simp [hA, hc] at h
    exact ⟨[Event.Log Level.Info [("ipv4", ipv4)] "A record is up to date"],
      by simp [hA, hc], by simp [hA, logMessages]⟩
  · by_cases hB : r.Type_ = "AAAA"
    · have hc : r.Content = ipv6 := by
        by_contra hc
        simp [hA, hB, hc] at h
      exact ⟨[Event.Log Level.Info [("ipv6", ipv6)] "AAAA record is up to date"],
        by simp [hB, hc], by simp [hA, hB, logMessages]⟩
    · exact ⟨[], by simp [hA, hB], by simp [hA, hB, logMessages]⟩

/-- The record loop on a listing in which no record needs an update. -/
theorem recordLoop_up_to_date (api : API) (ipv4 ipv6 zoneID : String)
    (records : List DNSRecord) (t : List Event)
    (h : ∀ r ∈ records, expectedUpdate ipv4 ipv6 zoneID r = none) :
    ∃ u, recordLoop api ipv4 ipv6 zoneID records t = t ++ u ∧
      logMessages u = records.filterMap upToDateMessage := by
  induction records generalizing t with
  | nil => exact ⟨[], by simp [recordLoop], rfl⟩
  | cons r rest ih =>
    obtain ⟨u1, h1, hm1⟩ := recordStep_up_to_date api ipv4 ipv6 zoneID t r
      (h r (List.mem_cons_self _ _))
    obtain ⟨u2, h2, hm2⟩ := ih (t ++ u1) (fun r hr => h r (List.mem_cons_of_mem _ hr))
    refine ⟨u1 ++ u2, by simp [recordLoop, h1, h2], ?_⟩
    rw [logMessages_append, hm1, hm2]
    cases hr : upToDateMessage r <;> simp [hr]

/-- The "up to date" lines of a listing, counted by record type. -/
theorem upToDateMessage_count (records : List DNSRecord) :
    (records.filterMap upToDateMessage).count "A record is up to date" =
      (records.filter fun r => r.Type_ = "A").length ∧
    (records.filterMap upToDateMessage).count "AAAA record is up to date" =
      (records.filter fun r => r.Type_ = "AAAA").length ∧
    ((records.filterMap upToDateMessage).filter isUpToDateLine).length =
      (records.filter fun r => r.Type_ = "A").length +
        (records.filter fun r => r.Type_ = "AAAA").length := by
  induction records with
  | nil => exact ⟨rfl, rfl, rfl⟩
  | cons r rest ih =>
    obtain ⟨ih1, ih2, ih3⟩ := ih
    by_cases hA : r.Type_ = "A"
    · have hB : ¬ r.Type_ = "AAAA" := by rw [hA]; decide
      have hm : upToDateMessage r = some "A record is up to date" := by
        simp [upToDateMessage, hA]
      have fA := List.filter_cons_of_pos (p := fun r : DNSRecord => decide (r.Type_ = "A"))
        (l := rest) (a := r) (by simpa using hA)
      have fB := List.filter_cons_of_neg (p := fun r : DNSRecord => decide (r.Type_ = "AAAA"))
        (l := rest) (a := r) (by simpa using hB)
      have fm := List.filter_cons_of_pos (p := isUpToDateLine)
        (l := rest.filterMap upToDateMessage) (a := "A record is up to date") (by decide)
      rw [List.filterMap_cons_some hm, fA, fB, fm, List.count_cons_self,
        List.count_cons_of_ne (by decide), ih1, ih2, List.length_cons, List.length_cons, ih3]
      exact ⟨rfl, rfl, by omega⟩
    · by_cases hB : r.Type_ = "AAAA"
      · have hm : upToDateMessage r = some "AAAA record is up to date" := by
          simp [upToDateMessage, hA, hB]
        have fA := List.filter_cons_of_neg (p := fun r : DNSRecord => decide (r.Type_ = "A"))
          (l := rest) (a := r) (by simpa using hA)
        have fB := List.filter_cons_of_pos (p := fun r : DNSRecord => decide (r.Type_ = "AAAA"))
          (l := rest) (a := r) (by simpa using hB)
        have fm := List.filter_cons_of_pos (p := isUpToDateLine)
          (l := rest.filterMap upToDateMessage) (a := "AAAA record is up to date") (by decide)
        rw [List.filterMap_cons_some hm, fA, fB, fm, List.count_cons_self,
          List.count_cons_of_ne (by decide), ih1, ih2, List.length_cons, List.length_cons, ih3]
        exact ⟨rfl, rfl, by omega⟩
      · have hm : upToDateMessage r = none := by
          simp [upToDateMessage, hA, hB]
        have fA := List.filter_cons_of_neg (p := fun r : DNSRecord => decide (r.Type_ = "A"))
          (l := rest) (a := r) (by simpa using hA)
        have fB := List.filter_cons_of_neg (p := fun r : DNSRecord => decide (r.Type_ = "AAAA"))
          (l := rest) (a := r) (by simpa using hB)
        rw [List.filterMap_cons_none hm, fA, fB]
        exact ⟨ih1, ih2, ih3⟩

/-! ## Record reconciler: the zone loop -/

theorem zoneHead_calls (zone : Zone) (resultInfo : ResultInfo) :
    updateCalls (zoneHead zone resultInfo) = [] ∧ listCount (zoneHead zone resultInfo) = 1 ∧
    listCalls (zoneHead zone resultInfo) = [zone.ID] := by
  unfold zoneHead morePagesWarning
  split_ifs <;> exact ⟨rfl, rfl, rfl⟩

theorem zoneHead_logs (zone : Zone) (info : ResultInfo) :
    (logMessages ([Event.ListZones] ++ zoneHead zone info)).count "A record is up to date" = 0 ∧
    (logMessages ([Event.ListZones] ++ zoneHead zone info)).count "AAAA record is up to date" = 0 ∧
    upToDateLines ([Event.ListZones] ++ zoneHead zone info) = [] := by
  unfold zoneHead morePagesWarning
  split_ifs <;> exact ⟨rfl, rfl, rfl⟩

/-- One turn of the zone loop on a zone with the configured name. -/
theorem zoneLoop_cons_match (api : API) (ipv4 ipv6 zoneName : String) (z : Zone)
    (rest : List Zone) (t : List Event) (hz : z.Name = zoneName) :
    zoneLoop api ipv4 ipv6 zoneName (z :: rest) t =
      match api.ListDNSRecords (listCount t) z.ID with
      | .error err =>
        (t ++ [Event.Log Level.Debug [("zone", z.Name)] "", Event.ListDNSRecords z.ID,
          logErr Level.Fatal err], true)
      | .ok (dnsRecords, resultInfo) =>
        zoneLoop api ipv4 ipv6 zoneName rest
          (recordLoop api ipv4 ipv6 z.ID dnsRecords (t ++ zoneHead z resultInfo)) := by
  rw [zoneLoop, if_pos hz]
  cases h : api.ListDNSRecords (listCount t) z.ID with
  | error err => simp
  | ok res => simp [zoneHead]

/-- One turn of the zone loop on a zone with another name. -/
theorem zoneLoop_cons_skip (api : API) (ipv4 ipv6 zoneName : String) (z : Zone)
    (rest : List Zone) (t : List Event) (hz : z.Name ≠ zoneName) :
    zoneLoop api ipv4 ipv6 zoneName (z :: rest) t = zoneLoop api ipv4 ipv6 zoneName rest t := by
  rw [zoneLoop, if_neg hz]

theorem matching_cons_match (zoneName : String) (z : Zone) (rest : List Zone)
    (hz : z.Name = zoneName) :
    matching zoneName (z :: rest) = z :: matching zoneName rest := by
  simp [matching, hz]

theorem matching_cons_skip (zoneName : String) (z : Zone) (rest : List Zone)
    (hz : z.Name ≠ zoneName) :
    matching zoneName (z :: rest) = matching zoneName rest := by
  simp [matching, hz]

/-- The zone loop leaves the trace alone when no zone has the configured name. -/
theorem zoneLoop_no_match (api : API) (ipv4 ipv6 zoneName : String) (zones : List Zone)
    (t : List Event) (h : ∀ zone ∈ zones, zone.Name ≠ zoneName) :
    zoneLoop api ipv4 ipv6 zoneName zones t = (t, false) := by
  induction zones generalizing t with
  | nil => rfl
  | cons z rest ih =>
    have hz : z.Name ≠ zoneName := h z (List.mem_cons_self _ _)
    have hrest : ∀ zone ∈ rest, zone.Name ≠ zoneName :=
      fun zone hm => h zone (List.mem_cons_of_mem _ hm)
    simp [zoneLoop, hz, ih t hrest]

/-- The zone loop when every record listing it asks for succeeds: it runs to
the end, lists the records of each matching zone once, in order, and issues
the update calls the specification asks for. -/
theorem zoneLoop_listings_ok (api : API) (ipv4 ipv6 zoneName : String)
    (records : Nat → List DNSRecord) (zones : List Zone) (t : List Event) (k : Nat)
    (hk : listCount t = k)
    (h : ∀ j zone, (matching zoneName zones)[j]? = some zone →
      ∃ info, api.ListDNSRecords (k + j) zone.ID = .ok (records (k + j), info)) :
    ∃ u, zoneLoop api ipv4 ipv6 zoneName zones t = (t ++ u, false) ∧
      updateCalls u = expectedCalls ipv4 ipv6 records k (matching zoneName zones) ∧
      listCalls u = (matching zoneName zones).map Zone.ID := by
  induction zones generalizing t k with
  | nil => exact ⟨[], by simp [zoneLoop], rfl, rfl⟩
  | cons z rest ih =>
    by_cases hz : z.Name = zoneName
    · rw [matching_cons_match zoneName z rest hz] at h ⊢
      obtain ⟨info, hlist⟩ := h 0 z (by simp)
      rw [Nat.add_zero] at hlist
      obtain ⟨hw1, hw2, hw3⟩ := zoneHead_calls z info
      obtain ⟨u1, h1, hu1, hl1, hc1⟩ := recordLoop_eq_append api ipv4 ipv6 z.ID (records k)
        (t ++ zoneHead z info)
      have hcount : listCount (t ++ zoneHead z info ++ u1) = k + 1 := by
        rw [listCount_append, listCount_append, hl1, hk, hw2]
      have hrest : ∀ j zone, (matching zoneName rest)[j]? = some zone →
          ∃ info, api.ListDNSRecords (k + 1 + j) zone.ID = .ok (records (k + 1 + j), info) := by
        intro j zone hj
        have := h (j + 1) zone (by simpa using hj)
        rwa [show k + (j + 1) = k + 1 + j by omega] at this
      obtain ⟨u2, h2, hu2, hc2⟩ := ih _ (k + 1) hcount hrest
      refine ⟨zoneHead z info ++ u1 ++ u2, ?_, ?_, ?_⟩
      · rw [zoneLoop_cons_match api ipv4 ipv6 zoneName z rest t hz]
        simp only [hk, hlist, h1, h2]
        simp
      · rw [updateCalls_append, updateCalls_append, hw1, hu1, hu2]
        simp [expectedCalls]
      · rw [listCalls_append, listCalls_append, hw3, hc1, hc2]
        simp
    · rw [matching_cons_skip zoneName z rest hz] at h ⊢
      obtain ⟨u, hu⟩ := ih t k hk h
      exact ⟨u, by rw [zoneLoop_cons_skip api ipv4 ipv6 zoneName z rest t hz]; exact hu.1, hu.2⟩

/-- The zone loop on a concatenation: the second part is run only when the
first part did not terminate the process. -/
theorem zoneLoop_append (api : API) (ipv4 ipv6 zoneName : String) (pre post : List Zone)
    (t : List Event) :
    zoneLoop api ipv4 ipv6 zoneName (pre ++ post) t =
      if (zoneLoop api ipv4 ipv6 zoneName pre t).2 = true
      then zoneLoop api ipv4 ipv6 zoneName pre t
      else zoneLoop api ipv4 ipv6 zoneName post (zoneLoop api ipv4 ipv6 zoneName pre t).1 := by
  induction pre generalizing t with
  | nil => simp [zoneLoop]
  | cons z rest ih =>
    by_cases hz : z.Name = zoneName
    · rw [List.cons_append, zoneLoop_cons_match api ipv4 ipv6 zoneName z _ t hz,
        zoneLoop_cons_match api ipv4 ipv6 zoneName z _ t hz]
      cases h : api.ListDNSRecords (listCount t) z.ID with
      | error err => simp
      | ok res => exact ih _
    · rw [List.cons_append, zoneLoop_cons_skip api ipv4 ipv6 zoneName z _ t hz,
        zoneLoop_cons_skip api ipv4 ipv6 zoneName z _ t hz]
      exact ih t

/-- When the zone loop terminates the process, the last event is the
`Fatal` log of the listing error. -/
theorem zoneLoop_exit_last (api : API) (ipv4 ipv6 zoneName : String) (zones : List Zone)
    (t : List Event) (h : (zoneLoop api ipv4 ipv6 zoneName zones t).2 = true) :
    ∃ err, (zoneLoop api ipv4 ipv6 zoneName zones t).1.getLast? = some (logErr Level.Fatal err) := by
  induction zones generalizing t with
  | nil => simp [zoneLoop] at h
  | cons z rest ih =>
    by_cases hz : z.Name = zoneName
    · rw [zoneLoop_cons_match api ipv4 ipv6 zoneName z _ t hz] at h ⊢
      cases hl : api.ListDNSRecords (listCount t) z.ID with
      | error err =>
        refine ⟨err, ?_⟩
        have e : t ++ [Event.Log Level.Debug [("zone", z.Name)] "", Event.ListDNSRecords z.ID,
            logErr Level.Fatal err] =
            (t ++ [Event.Log Level.Debug [("zone", z.Name)] "", Event.ListDNSRecords z.ID]) ++
              [logErr Level.Fatal err] := by simp
        simp only [e, List.getLast?_append, List.getLast?_singleton]
        rfl
      | ok res =>
        rw [hl] at h
        exact ih _ h
    · rw [zoneLoop_cons_skip api ipv4 ipv6 zoneName z _ t hz] at h ⊢
      exact ih t h

/-- When the zone loop runs to the end, it has listed the records of every
matching zone once. -/
theorem zoneLoop_listCount (api : API) (ipv4 ipv6 zoneName : String) (zones : List Zone)
    (t : List Event) (h : (zoneLoop api ipv4 ipv6 zoneName zones t).2 = false) :
    listCount (zoneLoop api ipv4 ipv6 zoneName zones t).1 =
      listCount t + (matching zoneName zones).length := by
  induction zones generalizing t with
  | nil => simp [zoneLoop, matching]
  | cons z rest ih =>
    by_cases hz : z.Name = zoneName
    · rw [zoneLoop_cons_match api ipv4 ipv6 zoneName z _ t hz] at h ⊢
      rw [matching_cons_match zoneName z rest hz]
      cases hl : api.ListDNSRecords (listCount t) z.ID with
      | error err => rw [hl] at h; simp at h
      | ok res =>
        rw [hl] at h
        obtain ⟨u1, h1, -, hl1, -⟩ := recordLoop_eq_append api ipv4 ipv6 z.ID res.1
          (t ++ zoneHead z res.2)
        simp only at h ⊢
        rw [ih _ h, h1, listCount_append, listCount_append, hl1, (zoneHead_calls z res.2).2.1,
          List.length_cons]
        omega
    · rw [zoneLoop_cons_skip api ipv4 ipv6 zoneName z _ t hz] at h ⊢
      rw [matching_cons_skip zoneName z rest hz]
      exact ih t h

/-- The zone loop under two providers that give the same record listings
and may differ in the outcome of every update call: run from traces with the
same number of listing calls, both loops end the same way and append the same
update calls and the same listing calls. -/
theorem zoneLoop_update_outcomes (api1 api2 : API) (ipv4 ipv6 zoneName : String)
    (hlist : api1.ListDNSRecords = api2.ListDNSRecords) (zones : List Zone)
    (t1 t2 : List Event) (ht : listCount t1 = listCount t2) :
    ∃ u1 u2 b, zoneLoop api1 ipv4 ipv6 zoneName zones t1 = (t1 ++ u1, b) ∧
      zoneLoop api2 ipv4 ipv6 zoneName zones t2 = (t2 ++ u2, b) ∧
      updateCalls u1 = updateCalls u2 ∧ listCalls u1 = listCalls u2 := by
  induction zones generalizing t1 t2 with
  | nil => exact ⟨[], [], false, by simp [zoneLoop], by simp [zoneLoop], rfl, rfl⟩
  | cons z rest ih =>
    by_cases hz : z.Name = zoneName
    · rw [zoneLoop_cons_match api1 ipv4 ipv6 zoneName z _ t1 hz,
        zoneLoop_cons_match api2 ipv4 ipv6 zoneName z _ t2 hz, hlist, ht]
      cases hl : api2.ListDNSRecords (listCount t2) z.ID with
      | error err => exact ⟨_, _, true, rfl, rfl, rfl, rfl⟩
      | ok res =>
        obtain ⟨v1, h1, hu1, hl1, hc1⟩ := recordLoop_eq_append api1 ipv4 ipv6 z.ID res.1
          (t1 ++ zoneHead z res.2)
        obtain ⟨v2, h2, hu2, hl2, hc2⟩ := recordLoop_eq_append api2 ipv4 ipv6 z.ID res.1
          (t2 ++ zoneHead z res.2)
        have hcount : listCount (t1 ++ zoneHead z res.2 ++ v1) =
            listCount (t2 ++ zoneHead z res.2 ++ v2) := by
          simp only [listCount_append, hl1, hl2, ht]
        obtain ⟨w1, w2, b, e1, e2, hu, hc⟩ := ih _ _ hcount
        refine ⟨zoneHead z res.2 ++ v1 ++ w1, zoneHead z res.2 ++ v2 ++ w2, b, ?_, ?_, ?_, ?_⟩
        · simp only [h1, e1]; simp
        · simp only [h2, e2]; simp
        · simp only [updateCalls_append, hu1, hu2, hu]
        · simp only [listCalls_append, hc1, hc2, hc]
    · rw [zoneLoop_cons_skip api1 ipv4 ipv6 zoneName z _ t1 hz,
        zoneLoop_cons_skip api2 ipv4 ipv6 zoneName z _ t2 hz]
      exact ih t1 t2 ht

/-- The zone loop only looks at the zones with the configured name. -/
theorem zoneLoop_matching (api : API) (ipv4 ipv6 zoneName : String) (zones : List Zone)
    (t : List Event) :
    zoneLoop api ipv4 ipv6 zoneName zones t =
      zoneLoop api ipv4 ipv6 zoneName (matching zoneName zones) t := by
  induction zones generalizing t with
  | nil => rfl
  | cons z rest ih =>
    by_cases hz : z.Name = zoneName
    · rw [matching_cons_match zoneName z rest hz,
        zoneLoop_cons_match api ipv4 ipv6 zoneName z _ t hz,
        zoneLoop_cons_match api ipv4 ipv6 zoneName z _ t hz]
      cases h : api.ListDNSRecords (listCount t) z.ID with
      | error err => rfl
      | ok res => exact ih _
    · rw [matching_cons_skip zoneName z rest hz,
        zoneLoop_cons_skip api ipv4 ipv6 zoneName z _ t hz]
      exact ih t

/-! ## Record reconciler: whole runs -/

/-- The run of `updateRecords` once the zones are listed. -/
theorem updateRecords_of_zones (env : Env) (api : API) (zones : List Zone)
    (ipv4 ipv6 : String)
    (hapi : env.NewWithAPIToken (env.Getenv "CLOUDFLARE_API_TOKEN") = .ok api)
    (hzones : api.ListZones = .ok zones) :
    updateRecords env ipv4 ipv6 =
      ((zoneLoop api ipv4 ipv6 (env.Getenv "ZONE_NAME") zones [Event.ListZones]).1,
        if (zoneLoop api ipv4 ipv6 (env.Getenv "ZONE_NAME") zones [Event.ListZones]).2
        then Outcome.exited else Outcome.returned none) := by
  unfold updateRecords
  simp only [hapi, hzones]
  rcases zoneLoop api ipv4 ipv6 (env.Getenv "ZONE_NAME") zones [Event.ListZones] with ⟨t, b⟩
  cases b <;> simp

/-- The run of `updateRecords` when exactly one zone has the configured name
and its record listing succeeds. -/
theorem updateRecords_single_zone (env : Env) (api : API) (zones : List Zone) (zone : Zone)
    (records : List DNSRecord) (info : ResultInfo) (ipv4 ipv6 : String)
    (hapi : env.NewWithAPIToken (env.Getenv "CLOUDFLARE_API_TOKEN") = .ok api)
    (hzones : api.ListZones = .ok zones)
    (hmatch : matching (env.Getenv "ZONE_NAME") zones = [zone])
    (hlist : api.ListDNSRecords 0 zone.ID = .ok (records, info)) :
    updateRecords env ipv4 ipv6 =
      (recordLoop api ipv4 ipv6 zone.ID records ([Event.ListZones] ++ zoneHead zone info),
        Outcome.returned none) := by
  have hz : zone.Name = env.Getenv "ZONE_NAME" := by
    have hm : zone ∈ matching (env.Getenv "ZONE_NAME") zones := by rw [hmatch]; simp
    simpa [matching] using (List.mem_filter.mp hm).2
  have h0 : listCount [Event.ListZones] = 0 := rfl
  rw [updateRecords_of_zones env api zones ipv4 ipv6 hapi hzones, zoneLoop_matching, hmatch,
    zoneLoop_cons_match api ipv4 ipv6 _ zone [] _ hz, h0, hlist]
  simp [zoneLoop]

/-- The update calls of `updateRecords` when exactly one zone has the
configured name and its record listing succeeds. -/
theorem updateCalls_single_zone (env : Env) (api : API) (zones : List Zone) (zone : Zone)
    (records : List DNSRecord) (info : ResultInfo) (ipv4 ipv6 : String)
    (hapi : env.NewWithAPIToken (env.Getenv "CLOUDFLARE_API_TOKEN") = .ok api)
    (hzones : api.ListZones = .ok zones)
    (hmatch : matching (env.Getenv "ZONE_NAME") zones = [zone])
    (hlist : api.ListDNSRecords 0 zone.ID = .ok (records, info)) :
    updateCalls (updateRecords env ipv4 ipv6).1 = expectedUpdates ipv4 ipv6 zone.ID records := by
  obtain ⟨v, hv, hcalls, -, -⟩ := recordLoop_eq_append api ipv4 ipv6 zone.ID records
    ([Event.ListZones] ++ zoneHead zone info)
  rw [updateRecords_single_zone env api zones zone records info ipv4 ipv6 hapi hzones hmatch hlist]
  show updateCalls (recordLoop api ipv4 ipv6 zone.ID records _) = _
  rw [hv, updateCalls_append, updateCalls_append, hcalls, (zoneHead_calls zone info).1]
  rfl

/-! ## A provider that applies updates: lemmas -/

theorem applyUpdates_eq_map (calls : List (String × UpdateDNSRecordParams))
    (records : List DNSRecord) :
    applyUpdates records calls = records.map fun r => calls.foldl applyOne r := by
  unfold applyUpdates
  induction calls generalizing records with
  | nil => simp
  | cons c cs ih =>
    rw [List.foldl_cons, ih]
    simp [applyUpdate]

theorem foldl_applyOne_id_type (calls : List (String × UpdateDNSRecordParams)) (r : DNSRecord) :
    (calls.foldl applyOne r).ID = r.ID ∧ (calls.foldl applyOne r).Type_ = r.Type_ := by
  induction calls generalizing r with
  | nil => exact ⟨rfl, rfl⟩
  | cons c cs ih =>
    rw [List.foldl_cons]
    obtain ⟨h1, h2⟩ := ih (applyOne r c)
    rw [h1, h2]
    unfold applyOne
    split_ifs <;> exact ⟨rfl, rfl⟩

theorem foldl_applyOne_untouched (calls : List (String × UpdateDNSRecordParams)) (r : DNSRecord)
    (h : ∀ c ∈ calls, c.2.ID ≠ r.ID) : calls.foldl applyOne r = r := by
  induction calls with
  | nil => rfl
  | cons c cs ih =>
    have hc : ¬ r.ID = c.2.ID := fun e => h c (List.mem_cons_self _ _) e.symm
    rw [List.foldl_cons, applyOne, if_neg hc]
    exact ih fun c hm => h c (List.mem_cons_of_mem _ hm)

theorem foldl_applyOne_content (calls : List (String × UpdateDNSRecordParams)) (r : DNSRecord)
    (v : String) (hall : ∀ c ∈ calls, c.2.ID = r.ID → c.2.Content = v)
    (hex : ∃ c ∈ calls, c.2.ID = r.ID) : (calls.foldl applyOne r).Content = v := by
  induction calls generalizing r with
  | nil => obtain ⟨c, hc, _⟩ := hex; cases hc
  | cons c cs ih =>
    rw [List.foldl_cons]
    have hid : (applyOne r c).ID = r.ID := by
      unfold applyOne; split_ifs <;> rfl
    by_cases hcs : ∃ c ∈ cs, c.2.ID = r.ID
    · exact ih (applyOne r c)
        (fun d hd e => hall d (List.mem_cons_of_mem _ hd) (e.trans hid))
        (by obtain ⟨d, hd, e⟩ := hcs; exact ⟨d, hd, e.trans hid.symm⟩)
    · have hc : c.2.ID = r.ID := by
        obtain ⟨d, hd, e⟩ := hex
        rcases List.mem_cons.mp hd with rfl | hd
        · exact e
        · exact absurd ⟨d, hd, e⟩ hcs
      rw [foldl_applyOne_untouched cs (applyOne r c)
        (fun d hd e => hcs ⟨d, hd, e.trans hid⟩)]
      rw [applyOne, if_pos hc.symm]
      exact hall c (List.mem_cons_self _ _) hc

/-- After the update calls asked for on a listing with pairwise distinct
ids are applied, no record of the listing needs an update. -/
theorem expectedUpdates_applyUpdates (ipv4 ipv6 zoneID zoneID2 : String)
    (records : List DNSRecord) (hids : (records.map DNSRecord.ID).Nodup) :
    expectedUpdates ipv4 ipv6 zoneID2
      (applyUpdates records (expectedUpdates ipv4 ipv6 zoneID records)) = [] := by
  rw [applyUpdates_eq_map]
  unfold expectedUpdates
  rw [List.filterMap_eq_nil_iff]
  intro r2 hr2
  obtain ⟨r, hr, rfl⟩ := List.mem_map.mp hr2
  obtain ⟨hid, hty⟩ := foldl_applyOne_id_type
    (List.filterMap (expectedUpdate ipv4 ipv6 zoneID) records) r
  -- every call on the id of `r` is the call asked for on `r`
  have hown : ∀ c ∈ List.filterMap (expectedUpdate ipv4 ipv6 zoneID) records,
      c.2.ID = r.ID → expectedUpdate ipv4 ipv6 zoneID r = some c := by
    intro c hc e
    obtain ⟨r0, hr0, h0⟩ := List.mem_filterMap.mp hc
    have e0 : r0.ID = c.2.ID := (expectedUpdate_eq_some ipv4 ipv6 zoneID r0 c h0).1.symm
    have : r0 = r := List.inj_on_of_nodup_map hids hr0 hr (e0.trans e)
    rw [← this]; exact h0
  cases hexp : expectedUpdate ipv4 ipv6 zoneID r with
  | none =>
    rw [foldl_applyOne_untouched _ r (fun c hc e => by
      have := hown c hc e
      rw [hexp] at this
      cases this)]
    exact (expectedUpdate_eq_none_iff ipv4 ipv6 zoneID2 r).mpr
      ((expectedUpdate_eq_none_iff ipv4 ipv6 zoneID r).mp hexp)
  | some c =>
    have hmem : c ∈ List.filterMap (expectedUpdate ipv4 ipv6 zoneID) records :=
      List.mem_filterMap.mpr ⟨r, hr, hexp⟩
    obtain ⟨hcid, hcase⟩ := expectedUpdate_eq_some ipv4 ipv6 zoneID r c hexp
    have hcontent := foldl_applyOne_content _ r c.2.Content
      (fun d hd e => by
        have := hown d hd e
        rw [hexp] at this
        rw [Option.some.inj this])
      ⟨c, hmem, hcid⟩
    rw [expectedUpdate_eq_none_iff, hty, hcontent]
    rcases hcase with ⟨hA, hc⟩ | ⟨hB, hc⟩
    · exact ⟨fun _ => hc, fun h => absurd h (by rw [hA]; decide)⟩
    · exact ⟨fun h => absurd h (by rw [hB]; decide), fun _ => hc⟩

/-! ## The claims -/

/-- C1: when the zone listing and the record listing of every zone named
`ZONE_NAME` succeed, the update calls of `updateRecords` are exactly, zone by
zone and in the order of the record listing, one call per `A` record whose
content differs from `ipv4` (with that record's id and `Content = ipv4`) and
one per `AAAA` record whose content differs from `ipv6` (with that record's id
and `Content = ipv6`), and no other call. -/
theorem updateRecords_update_calls (env : Env) (api : API) (zones : List Zone)
    (records : Nat → List DNSRecord) (ipv4 ipv6 : String)
    (hapi : env.NewWithAPIToken (env.Getenv "CLOUDFLARE_API_TOKEN") = .ok api)
    (hzones : api.ListZones = .ok zones)
    (hrecords : ∀ k zone, (matching (env.Getenv "ZONE_NAME") zones)[k]? = some zone →
      ∃ info, api.ListDNSRecords k zone.ID = .ok (records k, info)) :
    updateCalls (updateRecords env ipv4 ipv6).1 =
      expectedCalls ipv4 ipv6 records 0 (matching (env.Getenv "ZONE_NAME") zones) := by
  obtain ⟨u, hu, hcalls, _⟩ := zoneLoop_listings_ok api ipv4 ipv6 (env.Getenv "ZONE_NAME")
    records zones [Event.ListZones] 0 rfl (by simpa using hrecords)
  rw [updateRecords_of_zones env api zones ipv4 ipv6 hapi hzones, hu]
  simp only [updateCalls_append, hcalls]
  rfl

/-- C1 on the scenario of the specification: `r1` is set to `2.2.2.2` and
`r2` to `::2`, each once, and the `MX` record is left alone. -/
theorem updateRecords_update_calls_witness :
    updateCalls (updateRecords scenarioEnv "2.2.2.2" "::2").1 =
      [("z1", { ID := "r1", Content := "2.2.2.2" }), ("z1", { ID := "r2", Content := "::2" })] :=
  (updateRecords_update_calls scenarioEnv
    (apiWith [{ ID := "z1", Name := "example.com" }] scenarioRecords)
    [{ ID := "z1", Name := "example.com" }] (fun _ => scenarioRecords) "2.2.2.2" "::2" rfl rfl
    (fun _ _ _ => ⟨{ TotalPages := 1 }, rfl⟩)).trans (by decide)

/-- C2: when exactly one zone is named `ZONE_NAME` and its record listing
holds one `A` record, whose content is `ipv4`, one `AAAA` record, whose
content is `ipv6`, and otherwise records of other types, `updateRecords`
issues no update call and logs exactly two "up to date" lines: one
`A record is up to date` and one `AAAA record is up to date`. -/
theorem updateRecords_up_to_date (env : Env) (api : API) (zones : List Zone) (zone : Zone)
    (records : List DNSRecord) (info : ResultInfo) (a b : DNSRecord) (ipv4 ipv6 : String)
    (hapi : env.NewWithAPIToken (env.Getenv "CLOUDFLARE_API_TOKEN") = .ok api)
    (hzones : api.ListZones = .ok zones)
    (hmatch : matching (env.Getenv "ZONE_NAME") zones = [zone])
    (hlist : api.ListDNSRecords 0 zone.ID = .ok (records, info))
    (hA : (records.filter fun r => r.Type_ = "A") = [a]) (ha : a.Content = ipv4)
    (hB : (records.filter fun r => r.Type_ = "AAAA") = [b]) (hb : b.Content = ipv6) :
    updateCalls (updateRecords env ipv4 ipv6).1 = [] ∧
    (upToDateLines (updateRecords env ipv4 ipv6).1).length = 2 ∧
    (logMessages (updateRecords env ipv4 ipv6).1).count "A record is up to date" = 1 ∧
    (logMessages (updateRecords env ipv4 ipv6).1).count "AAAA record is up to date" = 1 := by
  have hnone : ∀ r ∈ records, expectedUpdate ipv4 ipv6 zone.ID r = none := by
    intro r hr
    unfold expectedUpdate
    have h1 : ¬ (r.Type_ = "A" ∧ r.Content ≠ ipv4) := by
      rintro ⟨ht, hc⟩
      have hm : r ∈ records.filter fun r => r.Type_ = "A" :=
        List.mem_filter.mpr ⟨hr, by simpa using ht⟩
      rw [hA, List.mem_singleton] at hm
      exact hc (hm ▸ ha)
    have h2 : ¬ (r.Type_ = "AAAA" ∧ r.Content ≠ ipv6) := by
      rintro ⟨ht, hc⟩
      have hm : r ∈ records.filter fun r => r.Type_ = "AAAA" :=
        List.mem_filter.mpr ⟨hr, by simpa using ht⟩
      rw [hB, List.mem_singleton] at hm
      exact hc (hm ▸ hb)
    rw [if_neg h1, if_neg h2]
  have hexp : expectedUpdates ipv4 ipv6 zone.ID records = [] :=
    List.filterMap_eq_nil_iff.mpr hnone
  obtain ⟨v, hv, hcalls, -, -⟩ := recordLoop_eq_append api ipv4 ipv6 zone.ID records
    ([Event.ListZones] ++ zoneHead zone info)
  obtain ⟨u, hu, hm⟩ := recordLoop_up_to_date api ipv4 ipv6 zone.ID records
    ([Event.ListZones] ++ zoneHead zone info) hnone
  obtain ⟨hl1, hl2, hl3⟩ := zoneHead_logs zone info
  obtain ⟨hc1, hc2, hc3⟩ := upToDateMessage_count records
  unfold upToDateLines at hl3 ⊢
  rw [updateRecords_single_zone env api zones zone records info ipv4 ipv6 hapi hzones hmatch hlist]
  refine ⟨?_, ?_, ?_, ?_⟩
  · show updateCalls (recordLoop api ipv4 ipv6 zone.ID records _) = []
    rw [hv, updateCalls_append, updateCalls_append, hcalls, hexp, (zoneHead_calls zone info).1]
    rfl
  · show ((logMessages (recordLoop api ipv4 ipv6 zone.ID records _)).filter _).length = 2
    rw [hu, logMessages_append, List.filter_append, hl3, hm, List.nil_append, hc3, hA, hB]
    rfl
  · show (logMessages (recordLoop api ipv4 ipv6 zone.ID records _)).count _ = 1
    rw [hu, logMessages_append, List.count_append, hl1, hm, hc1, hA]
    rfl
  · show (logMessages (recordLoop api ipv4 ipv6 zone.ID records _)).count _ = 1
    rw [hu, logMessages_append, List.count_append, hl2, hm, hc2, hB]
    rfl

/-- C2 on the scenario of the specification with the records already at
`2.2.2.2` and `::2`: no update call, two "up to date" lines. -/
theorem updateRecords_up_to_date_witness :
    updateCalls (updateRecords
      (envWith (apiWith [{ ID := "z1", Name := "example.com" }] settledRecords))
      "2.2.2.2" "::2").1 = [] ∧
    upToDateLines (updateRecords
      (envWith (apiWith [{ ID := "z1", Name := "example.com" }] settledRecords))
      "2.2.2.2" "::2").1 = ["AAAA record is up to date", "A record is up to date"] :=
  have h := updateRecords_up_to_date
    (envWith (apiWith [{ ID := "z1", Name := "example.com" }] settledRecords))
    (apiWith [{ ID := "z1", Name := "example.com" }] settledRecords)
    [{ ID := "z1", Name := "example.com" }] { ID := "z1", Name := "example.com" }
    settledRecords { TotalPages := 1 } { ID := "r1", Type_ := "A", Content := "2.2.2.2" }
    { ID := "r2", Type_ := "AAAA", Content := "::2" } "2.2.2.2" "::2"
    rfl rfl (by decide) rfl (by decide) rfl (by decide) rfl
  ⟨h.1, by decide⟩

/-- C3: `fetchIp` returns an error exactly when the attempt on the
secondary endpoint fails, that is exactly when the `tcp4` or the `tcp6`
fetch from the secondary endpoint fails, whatever the primary endpoint
answers; and then both returned strings are empty. -/
theorem fetchIp_fails_iff_secondary_fails (net : Net) :
    ((fetchIp net).err ≠ none ↔ (fetchIpFrom net secondaryEndpoint).1.2.2 ≠ none) ∧
    ((fetchIp net).err ≠ none ↔
      (failed (fetchContent net secondaryEndpoint "tcp4") = true ∨
       failed (fetchContent net secondaryEndpoint "tcp6") = true)) ∧
    ((fetchIp net).err ≠ none → (fetchIp net).ipv4 = "" ∧ (fetchIp net).ipv6 = "") :=
  ⟨fetchIp_err net, (fetchIp_err net).trans (fetchIpFrom_err net secondaryEndpoint),
    fetchIp_empty_of_err net⟩

/-- C3 at a network whose primary endpoint answers both fetches and whose
secondary endpoint is unreachable: `fetchIp` fails with two empty strings. -/
theorem fetchIp_fails_iff_secondary_fails_witness :
    fetchContent netSecondaryDown primaryEndpoint "tcp4" = .ok "1.1.1.1" ∧
    fetchContent netSecondaryDown primaryEndpoint "tcp6" = .ok "::1" ∧
    failed (fetchContent netSecondaryDown secondaryEndpoint "tcp4") = true ∧
    failed (fetchContent netSecondaryDown secondaryEndpoint "tcp6") = true ∧
    (fetchIp netSecondaryDown).err ≠ none ∧
    (fetchIp netSecondaryDown).ipv4 = "" ∧ (fetchIp netSecondaryDown).ipv6 = "" :=
  have h := fetchIp_fails_iff_secondary_fails netSecondaryDown
  have herr : (fetchIp netSecondaryDown).err ≠ none := h.2.1.mpr (Or.inl (by decide))
  ⟨rfl, rfl, by decide, by decide, herr, h.2.2 herr⟩

/-- C4: when both fetches from the secondary endpoint succeed, `fetchIp`
returns the `tcp4` body as `ipv4` and the `tcp6` body as `ipv6`, unchanged,
with a nil error, whatever the primary endpoint answers. -/
theorem fetchIp_returns_secondary_bodies (net : Net) (body4 body6 : String)
    (h4 : net.get secondaryEndpoint "tcp4" = .ok (.ok body4))
    (h6 : net.get secondaryEndpoint "tcp6" = .ok (.ok body6)) :
    (fetchIp net).ipv4 = body4 ∧ (fetchIp net).ipv6 = body6 ∧ (fetchIp net).err = none := by
  have hs : fetchIpFrom net secondaryEndpoint =
      ((body4, body6, none),
        [Event.Get secondaryEndpoint "tcp4", Event.Get secondaryEndpoint "tcp6"]) := by
    simp [fetchIpFrom, fetchContent, h4, h6]
  unfold fetchIp
  rcases hp : fetchIpFrom net primaryEndpoint with ⟨⟨a, b, e⟩, g⟩
  simp [hs]

/-- C4 at a network on which the primary endpoint succeeds too: the bodies
of the secondary endpoint are returned, untrimmed. -/
theorem fetchIp_returns_secondary_bodies_witness :
    (fetchIpFrom netAllOk primaryEndpoint).1 = ("1.1.1.1", "::1", none) ∧
    (fetchIp netAllOk).ipv4 = "2.2.2.2\n" ∧ (fetchIp netAllOk).ipv6 = " ::2 " ∧
    (fetchIp netAllOk).err = none :=
  ⟨by decide, fetchIp_returns_secondary_bodies netAllOk "2.2.2.2\n" " ::2 " rfl rfl⟩

/-- C5: on the network whose secondary endpoint is unreachable, the error
returned by `fetchIp` is not the underlying fetch error, and its message is
`unsable to fetch ip`, not `unable to fetch ip`. -/
theorem fetchIp_error_message :
    (fetchIpFrom netSecondaryDown secondaryEndpoint).1.2.2 = some "dial: network is unreachable" ∧
    (fetchIp netSecondaryDown).err = some "unsable to fetch ip" ∧
    (fetchIp netSecondaryDown).err ≠ some "unable to fetch ip" := by
  decide

/-- C6: when the zone listing succeeds and no zone is named exactly
`ZONE_NAME`, `updateRecords` only lists the zones: it lists no records,
issues no update call, does not terminate the process and returns nil. -/
theorem updateRecords_no_matching_zone (env : Env) (api : API) (zones : List Zone)
    (ipv4 ipv6 : String)
    (hapi : env.NewWithAPIToken (env.Getenv "CLOUDFLARE_API_TOKEN") = .ok api)
    (hzones : api.ListZones = .ok zones)
    (hno : ∀ zone ∈ zones, zone.Name ≠ env.Getenv "ZONE_NAME") :
    (updateRecords env ipv4 ipv6).1 = [Event.ListZones] ∧
    listCalls (updateRecords env ipv4 ipv6).1 = [] ∧
    updateCalls (updateRecords env ipv4 ipv6).1 = [] ∧
    (updateRecords env ipv4 ipv6).2 = Outcome.returned none := by
  rw [updateRecords_of_zones env api zones ipv4 ipv6 hapi hzones,
    zoneLoop_no_match api ipv4 ipv6 _ zones _ hno]
  exact ⟨rfl, rfl, rfl, rfl⟩

/-- C6 on a zone listing whose names differ from `example.com` in case, by a
trailing dot, by a prefix and by a missing letter. -/
theorem updateRecords_no_matching_zone_witness :
    (updateRecords (envWith (apiWith nearMissZones scenarioRecords)) "2.2.2.2" "::2").1
      = [Event.ListZones] ∧
    listCalls (updateRecords (envWith (apiWith nearMissZones scenarioRecords)) "2.2.2.2" "::2").1
      = [] ∧
    updateCalls (updateRecords (envWith (apiWith nearMissZones scenarioRecords)) "2.2.2.2" "::2").1
      = [] ∧
    (updateRecords (envWith (apiWith nearMissZones scenarioRecords)) "2.2.2.2" "::2").2
      = Outcome.returned none :=
  updateRecords_no_matching_zone (envWith (apiWith nearMissZones scenarioRecords))
    (apiWith nearMissZones scenarioRecords) nearMissZones "2.2.2.2" "::2" rfl rfl (by decide)

/-- C7: the update calls of `updateRecords` do not depend on the outcome of
any update call.  Under two providers that answer the zone listing and the
record listings alike and differ at will in which update calls succeed,
`updateRecords` issues the same update calls in the same order (so a failed
update is not retried), lists the same zones and ends the same way; and it
never returns a non-nil error. -/
theorem updateRecords_independent_of_update_outcomes (env1 env2 : Env) (api1 api2 : API)
    (ipv4 ipv6 : String)
    (hname : env1.Getenv "ZONE_NAME" = env2.Getenv "ZONE_NAME")
    (hapi1 : env1.NewWithAPIToken (env1.Getenv "CLOUDFLARE_API_TOKEN") = .ok api1)
    (hapi2 : env2.NewWithAPIToken (env2.Getenv "CLOUDFLARE_API_TOKEN") = .ok api2)
    (hzones : api1.ListZones = api2.ListZones)
    (hlist : api1.ListDNSRecords = api2.ListDNSRecords) :
    updateCalls (updateRecords env1 ipv4 ipv6).1 = updateCalls (updateRecords env2 ipv4 ipv6).1 ∧
    listCalls (updateRecords env1 ipv4 ipv6).1 = listCalls (updateRecords env2 ipv4 ipv6).1 ∧
    (updateRecords env1 ipv4 ipv6).2 = (updateRecords env2 ipv4 ipv6).2 ∧
    ∀ err, (updateRecords env1 ipv4 ipv6).2 ≠ Outcome.returned (some err) := by
  cases hz : api2.ListZones with
  | error e =>
    have h1 : updateRecords env1 ipv4 ipv6 = ([Event.ListZones], Outcome.returned none) := by
      unfold updateRecords
      simp only [hapi1, hzones, hz]
    have h2 : updateRecords env2 ipv4 ipv6 = ([Event.ListZones], Outcome.returned none) := by
      unfold updateRecords
      simp only [hapi2, hz]
    rw [h1, h2]
    exact ⟨rfl, rfl, rfl, fun err h => by simp at h⟩
  | ok zones =>
    obtain ⟨u1, u2, b, e1, e2, hu, hc⟩ := zoneLoop_update_outcomes api1 api2 ipv4 ipv6
      (env2.Getenv "ZONE_NAME") hlist zones [Event.ListZones] [Event.ListZones] rfl
    rw [updateRecords_of_zones env1 api1 zones ipv4 ipv6 hapi1 (hzones.trans hz),
      updateRecords_of_zones env2 api2 zones ipv4 ipv6 hapi2 hz, hname, e1, e2]
    refine ⟨?_, ?_, rfl, ?_⟩
    · simp only [updateCalls_append, hu]
    · simp only [listCalls_append, hc]
    · intro err h
      cases b <;> simp at h

/-- C7 on the scenario of the specification, with every update failing and
with every update succeeding: the same two calls, and a nil return. -/
theorem updateRecords_independent_of_update_outcomes_witness :
    updateCalls (updateRecords (envWith apiUpdatesFail) "2.2.2.2" "::2").1 =
      [("z1", { ID := "r1", Content := "2.2.2.2" }), ("z1", { ID := "r2", Content := "::2" })] ∧
    updateCalls (updateRecords scenarioEnv "2.2.2.2" "::2").1 =
      [("z1", { ID := "r1", Content := "2.2.2.2" }), ("z1", { ID := "r2", Content := "::2" })] ∧
    (updateRecords (envWith apiUpdatesFail) "2.2.2.2" "::2").2 = Outcome.returned none ∧
    (updateRecords scenarioEnv "2.2.2.2" "::2").2 = Outcome.returned none :=
  have h := updateRecords_independent_of_update_outcomes (envWith apiUpdatesFail) scenarioEnv
    apiUpdatesFail (apiWith [{ ID := "z1", Name := "example.com" }] scenarioRecords)
    "2.2.2.2" "::2" rfl rfl rfl rfl rfl
  have h2 : (updateRecords scenarioEnv "2.2.2.2" "::2").2 = Outcome.returned none := by decide
  ⟨h.1.trans (by decide), by decide, h.2.2.1.trans h2, h2⟩

/-- C8: when listing the zones fails, `updateRecords` returns nil without
terminating the process; its only effect is the `ListZones` call: no log
event, no record listing and no update call. -/
theorem updateRecords_zone_listing_fails (env : Env) (api : API) (err : GoError)
    (ipv4 ipv6 : String)
    (hapi : env.NewWithAPIToken (env.Getenv "CLOUDFLARE_API_TOKEN") = .ok api)
    (hzones : api.ListZones = .error err) :
    updateRecords env ipv4 ipv6 = ([Event.ListZones], Outcome.returned none) ∧
    logMessages (updateRecords env ipv4 ipv6).1 = [] ∧
    listCalls (updateRecords env ipv4 ipv6).1 = [] ∧
    updateCalls (updateRecords env ipv4 ipv6).1 = [] := by
  have h : updateRecords env ipv4 ipv6 = ([Event.ListZones], Outcome.returned none) := by
    unfold updateRecords
    simp only [hapi, hzones]
  rw [h]
  exact ⟨rfl, rfl, rfl, rfl⟩

/-- C8 on a provider whose zone listing answers with a server error. -/
theorem updateRecords_zone_listing_fails_witness :
    updateRecords (envWith apiZonesDown) "2.2.2.2" "::2"
      = ([Event.ListZones], Outcome.returned none) ∧
    logMessages (updateRecords (envWith apiZonesDown) "2.2.2.2" "::2").1 = [] ∧
    listCalls (updateRecords (envWith apiZonesDown) "2.2.2.2" "::2").1 = [] ∧
    updateCalls (updateRecords (envWith apiZonesDown) "2.2.2.2" "::2").1 = [] :=
  updateRecords_zone_listing_fails (envWith apiZonesDown) apiZonesDown "HTTP status 500"
    "2.2.2.2" "::2" rfl rfl

/-- C9: when the record listing of a zone named `ZONE_NAME` fails,
`updateRecords` terminates the process, the last event being a `Fatal` log,
and its update calls are those issued for the zones listed before that zone:
none for that zone, none for a later zone. -/
theorem updateRecords_record_listing_fails (env : Env) (api : API) (pre post : List Zone)
    (zone : Zone) (err : GoError) (ipv4 ipv6 : String)
    (hapi : env.NewWithAPIToken (env.Getenv "CLOUDFLARE_API_TOKEN") = .ok api)
    (hzones : api.ListZones = .ok (pre ++ zone :: post))
    (hname : zone.Name = env.Getenv "ZONE_NAME")
    (hfail : api.ListDNSRecords (matching (env.Getenv "ZONE_NAME") pre).length zone.ID
      = .error err) :
    (updateRecords env ipv4 ipv6).2 = Outcome.exited ∧
    (∃ e, (updateRecords env ipv4 ipv6).1.getLast? = some (logErr Level.Fatal e)) ∧
    updateCalls (updateRecords env ipv4 ipv6).1 =
      updateCalls (zoneLoop api ipv4 ipv6 (env.Getenv "ZONE_NAME") pre [Event.ListZones]).1 := by
  rw [updateRecords_of_zones env api _ ipv4 ipv6 hapi hzones, zoneLoop_append]
  cases hb : (zoneLoop api ipv4 ipv6 (env.Getenv "ZONE_NAME") pre [Event.ListZones]).2 with
  | true =>
    simp only [if_true, hb]
    exact ⟨trivial, zoneLoop_exit_last api ipv4 ipv6 _ pre _ hb, trivial⟩
  | false =>
    have hcount := zoneLoop_listCount api ipv4 ipv6 _ pre _ hb
    have h0 : listCount [Event.ListZones] = 0 := rfl
    rw [h0, Nat.zero_add] at hcount
    simp only [Bool.false_eq_true, if_false]
    rw [zoneLoop_cons_match api ipv4 ipv6 _ zone post _ hname, hcount, hfail]
    refine ⟨rfl, ⟨err, ?_⟩, ?_⟩
    · have e : ∀ (t : List Event) (a b c : Event), t ++ [a, b, c] = (t ++ [a, b]) ++ [c] := by
        intro t a b c; simp
      simp only [e, List.getLast?_append, List.getLast?_singleton]
      rfl
    · simp only [updateCalls_append]
      simp [updateCalls, logErr]

/-- C9 on three zones named `example.com` where the second record listing
fails: the process exits after the two update calls of the first zone. -/
theorem updateRecords_record_listing_fails_witness :
    (updateRecords (envWith apiSecondListingDown) "2.2.2.2" "::2").2 = Outcome.exited ∧
    updateCalls (updateRecords (envWith apiSecondListingDown) "2.2.2.2" "::2").1 =
      [("z1", { ID := "r1", Content := "2.2.2.2" }), ("z1", { ID := "r2", Content := "::2" })] :=
  have h := updateRecords_record_listing_fails (envWith apiSecondListingDown)
    apiSecondListingDown
    [{ ID := "z1", Name := "example.com" }, { ID := "z9", Name := "example.org" }]
    [{ ID := "z3", Name := "example.com" }] { ID := "z2", Name := "example.com" }
    "HTTP status 500" "2.2.2.2" "::2" rfl rfl rfl rfl
  ⟨h.1, h.2.2.trans (by decide)⟩

/-- C10: reconciliation is idempotent against a provider that applies
updates.  Take a run of `updateRecords` on a single zone named `ZONE_NAME`
whose record listing has pairwise distinct ids, in which every update call
succeeds, and let the provider set the content of the record with the id of
each call to the content of the call.  Then a second run with the same
`ipv4` and `ipv6` on the resulting record listing issues no update call. -/
theorem updateRecords_idempotent (env1 env2 : Env) (api1 api2 : API)
    (zones1 zones2 : List Zone) (zone1 zone2 : Zone) (records : List DNSRecord)
    (info1 info2 : ResultInfo) (ipv4 ipv6 : String)
    (hapi1 : env1.NewWithAPIToken (env1.Getenv "CLOUDFLARE_API_TOKEN") = .ok api1)
    (hzones1 : api1.ListZones = .ok zones1)
    (hmatch1 : matching (env1.Getenv "ZONE_NAME") zones1 = [zone1])
    (hlist1 : api1.ListDNSRecords 0 zone1.ID = .ok (records, info1))
    (hids : (records.map DNSRecord.ID).Nodup)
    (_hupdates : ∀ k zoneID params, api1.UpdateDNSRecord k zoneID params = none)
    (hapi2 : env2.NewWithAPIToken (env2.Getenv "CLOUDFLARE_API_TOKEN") = .ok api2)
    (hzones2 : api2.ListZones = .ok zones2)
    (hmatch2 : matching (env2.Getenv "ZONE_NAME") zones2 = [zone2])
    (hlist2 : api2.ListDNSRecords 0 zone2.ID =
      .ok (applyUpdates records (updateCalls (updateRecords env1 ipv4 ipv6).1), info2)) :
    updateCalls (updateRecords env2 ipv4 ipv6).1 = [] := by
  rw [updateCalls_single_zone env1 api1 zones1 zone1 records info1 ipv4 ipv6 hapi1 hzones1
    hmatch1 hlist1] at hlist2
  rw [updateCalls_single_zone env2 api2 zones2 zone2 _ info2 ipv4 ipv6 hapi2 hzones2
    hmatch2 hlist2]
  exact expectedUpdates_applyUpdates ipv4 ipv6 zone1.ID zone2.ID records hids

/-- C10 on the scenario of the specification: after `r1` and `r2` were
updated, the listing holds `2.2.2.2` and `::2`, and the second run issues no
update call. -/
theorem updateRecords_idempotent_witness :
    updateCalls (updateRecords scenarioEnv "2.2.2.2" "::2").1 =
      [("z1", { ID := "r1", Content := "2.2.2.2" }), ("z1", { ID := "r2", Content := "::2" })] ∧
    applyUpdates scenarioRecords (updateCalls (updateRecords scenarioEnv "2.2.2.2" "::2").1)
      = updatedRecords ∧
    updateCalls (updateRecords
      (envWith (apiWith [{ ID := "z1", Name := "example.com" }] updatedRecords))
      "2.2.2.2" "::2").1 = [] :=
  ⟨by decide, by decide,
    updateRecords_idempotent scenarioEnv
      (envWith (apiWith [{ ID := "z1", Name := "example.com" }] updatedRecords))
      (apiWith [{ ID := "z1", Name := "example.com" }] scenarioRecords)
      (apiWith [{ ID := "z1", Name := "example.com" }] updatedRecords)
      [{ ID := "z1", Name := "example.com" }] [{ ID := "z1", Name := "example.com" }]
      { ID := "z1", Name := "example.com" } { ID := "z1", Name := "example.com" }
      scenarioRecords { TotalPages := 1 } { TotalPages := 1 } "2.2.2.2" "::2"
      rfl rfl (by decide) rfl (by decide) (fun _ _ _ => rfl) rfl rfl (by decide) rfl⟩

end CloudflareDDNS
